import Mathlib

/- Verification of the ZeroGambit move-quality classification core.
   Shallow embedding of src/api/services/stockfish_analyzer.py and
   src/api/services/analysis.py: the move classifier, the accuracy
   aggregation, the win-probability transform, and the engine-session
   error handling. -/

/-- Embedding of `classify_move_by_cp_loss`
    (src/api/services/stockfish_analyzer.py, lines 37-95).
    Missing evaluations are `none`; centipawns and move numbers are `Int`.
    Python's `'=' in move_san` is embedded as membership of the character
    in the string's character list. -/
def classify_move_by_cp_loss (cp_before cp_after : Option Int)
    (is_white_to_move : Bool) (move_san : String) (move_number : Int) : String :=
  if move_number ≤ 10 then "book"
  else
    match cp_before, cp_after with
    | some cb, some ca =>
      let cp_loss : Int := if is_white_to_move then cb - ca else ca - cb
      if cp_loss = 0 then "best"
      else if cp_loss ≤ 5 ∧ move_san.data.contains '=' then "brilliant"
      else if cp_loss ≤ 5 then "great"
      else if cp_loss ≤ 15 then "excellent"
      else if cp_loss ≤ 30 then "good"
      else if cp_loss ≤ 70 then "inaccuracy"
      else if cp_loss ≤ 200 then "mistake"
      else "blunder"
    | _, _ => "normal"

/-- The centipawn-loss banding written from the spec's words (section 4.2
    step 5): ascending thresholds, first match wins. Used to compare the
    implementation against the specified bands. -/
def spec_band (loss : Int) : String :=
  if loss ≤ 5 then "great"
  else if loss ≤ 15 then "excellent"
  else if loss ≤ 30 then "good"
  else if loss ≤ 70 then "inaccuracy"
  else if loss ≤ 200 then "mistake"
  else "blunder"

lemma classify_book (cp_before cp_after : Option Int) (w : Bool) (san : String)
    (mn : Int) (h : mn ≤ 10) :
    classify_move_by_cp_loss cp_before cp_after w san mn = "book" := by
  unfold classify_move_by_cp_loss
  rw [if_pos h]

lemma classify_some_some (cb ca : Int) (w : Bool) (san : String) (mn : Int)
    (h : 10 < mn) :
    classify_move_by_cp_loss (some cb) (some ca) w san mn =
      (if (if w then cb - ca else ca - cb) = 0 then "best"
       else if (if w then cb - ca else ca - cb) ≤ 5 ∧ san.data.contains '=' then "brilliant"
       else if (if w then cb - ca else ca - cb) ≤ 5 then "great"
       else if (if w then cb - ca else ca - cb) ≤ 15 then "excellent"
       else if (if w then cb - ca else ca - cb) ≤ 30 then "good"
       else if (if w then cb - ca else ca - cb) ≤ 70 then "inaccuracy"
       else if (if w then cb - ca else ca - cb) ≤ 200 then "mistake"
       else "blunder") := by
  unfold classify_move_by_cp_loss
  rw [if_neg (by omega)]

lemma classify_missing_fst (ca : Option Int) (w : Bool) (san : String) (mn : Int)
    (h : 10 < mn) :
    classify_move_by_cp_loss none ca w san mn = "normal" := by
  rcases ca with _ | ca <;>
    · unfold classify_move_by_cp_loss
      rw [if_neg (by omega)]

lemma classify_missing_snd (cb : Option Int) (w : Bool) (san : String) (mn : Int)
    (h : 10 < mn) :
    classify_move_by_cp_loss cb none w san mn = "normal" := by
  rcases cb with _ | cb <;>
    · unfold classify_move_by_cp_loss
      rw [if_neg (by omega)]

/-- Claim C1: for a move with move number above 10, both evaluations present,
    nonzero loss, and the promotion uplift not applying, the classifier
    returns exactly the banded tier determined by the signed loss
    (eval_before - eval_after for White, eval_after - eval_before for Black). -/
theorem C1_banded_tier (cb ca : Int) (w : Bool) (san : String) (mn : Int)
    (hmn : 10 < mn)
    (hnz : (if w then cb - ca else ca - cb) ≠ 0)
    (hup : ¬((if w then cb - ca else ca - cb) ≤ 5 ∧ san.data.contains '=' = true)) :
    classify_move_by_cp_loss (some cb) (some ca) w san mn
      = spec_band (if w then cb - ca else ca - cb) := by
  rw [classify_some_some cb ca w san mn hmn]
  unfold spec_band
  rw [if_neg hnz, if_neg hup]

/-- Witness for C1 at the spec's Scenario B: eval before +100, eval after
    -150, White's move, move number 15 gives loss 250 and tier "blunder". -/
theorem C1_banded_tier_witness :
    classify_move_by_cp_loss (some 100) (some (-150)) true "Qd5" 15 = "blunder" := by
  rw [C1_banded_tier 100 (-150) true "Qd5" 15 (by decide) (by decide) (by decide)]
  decide

/-- Claim C2: every move with move number at most 10 is classified "book",
    whatever the evaluations are, including missing ones. -/
theorem C2_book_short_circuit (cp_before cp_after : Option Int) (w : Bool)
    (san : String) (mn : Int) (h : mn ≤ 10) :
    classify_move_by_cp_loss cp_before cp_after w san mn = "book" :=
  classify_book cp_before cp_after w san mn h

/-- Witness for C2: Scenario C (zero loss at move 4) and a huge blunder with
    a missing evaluation at move 3 are both "book". -/
theorem C2_book_short_circuit_witness :
    classify_move_by_cp_loss (some 0) (some 0) true "d4" 4 = "book" ∧
    classify_move_by_cp_loss none (some 900) false "Qxh7" 3 = "book" :=
  ⟨C2_book_short_circuit (some 0) (some 0) true "d4" 4 (by decide),
   C2_book_short_circuit none (some 900) false "Qxh7" 3 (by decide)⟩

/-- Counterexample to claim C3: a negative loss is not treated as zero loss.
    Eval before +100, eval after +110, White's move, move 15 gives loss -10,
    and the classifier returns "great", not "best". -/
theorem C3_counterexample :
    classify_move_by_cp_loss (some 100) (some 110) true "Nf3" 15 ≠ "best" ∧
    classify_move_by_cp_loss (some 100) (some 110) true "Nf3" 15 = "great" := by
  rw [classify_some_some 100 110 true "Nf3" 15 (by decide)]
  constructor <;> decide

/-- Claim C3 as amended: past move 10 with both evaluations present, a loss of
    exactly zero is classified "best"; a negative loss falls through to the
    bands instead, giving "brilliant" on a promotion and "great" otherwise. -/
theorem C3_zero_loss_best (cb ca : Int) (w : Bool) (san : String) (mn : Int)
    (hmn : 10 < mn) :
    ((if w then cb - ca else ca - cb) = 0 →
      classify_move_by_cp_loss (some cb) (some ca) w san mn = "best") ∧
    ((if w then cb - ca else ca - cb) < 0 →
      classify_move_by_cp_loss (some cb) (some ca) w san mn
        = (if san.data.contains '=' then "brilliant" else "great")) := by
  rw [classify_some_some cb ca w san mn hmn]
  constructor
  · intro h0
    rw [if_pos h0]
  · intro hneg
    rw [if_neg (by omega)]
    by_cases hp : san.data.contains '=' = true
    · rw [if_pos ⟨by omega, hp⟩, if_pos hp]
    · rw [if_neg (fun hc => hp hc.2), if_pos (by omega), if_neg hp]

/-- Witness for the amended C3: Scenario A (both evals +50, White, move 20)
    gives "best"; loss -10 on a non-promotion gives "great". -/
theorem C3_zero_loss_best_witness :
    classify_move_by_cp_loss (some 50) (some 50) true "Rd1" 20 = "best" ∧
    classify_move_by_cp_loss (some 100) (some 110) true "Nf3" 15 = "great" :=
  ⟨(C3_zero_loss_best 50 50 true "Rd1" 20 (by decide)).1 (by decide),
   ((C3_zero_loss_best 100 110 true "Nf3" 15 (by decide)).2 (by decide)).trans (by decide)⟩

/-- Counterexample to claim C8: a promotion with loss 0 (hence at most 5) is
    classified "best", not "brilliant" — the zero-loss short-circuit fires
    before the promotion uplift. -/
theorem C8_counterexample :
    classify_move_by_cp_loss (some 50) (some 50) true "e8=Q" 15 ≠ "brilliant" ∧
    classify_move_by_cp_loss (some 50) (some 50) true "e8=Q" 15 = "best" := by
  rw [classify_some_some 50 50 true "e8=Q" 15 (by decide)]
  constructor <;> decide

/-- Claim C8 as amended: past move 10 with both evaluations present, a
    promotion move with nonzero loss at most 5 is classified "brilliant". -/
theorem C8_promotion_brilliant (cb ca : Int) (w : Bool) (san : String) (mn : Int)
    (hmn : 10 < mn)
    (hnz : (if w then cb - ca else ca - cb) ≠ 0)
    (hle : (if w then cb - ca else ca - cb) ≤ 5)
    (hpromo : san.data.contains '=' = true) :
    classify_move_by_cp_loss (some cb) (some ca) w san mn = "brilliant" := by
  rw [classify_some_some cb ca w san mn hmn]
  rw [if_neg hnz, if_pos ⟨hle, hpromo⟩]

/-- Witness for the amended C8: Black promotes with loss 3 at move 15. -/
theorem C8_promotion_brilliant_witness :
    classify_move_by_cp_loss (some 50) (some 53) false "e8=Q" 15 = "brilliant" :=
  C8_promotion_brilliant 50 53 false "e8=Q" 15 (by decide) (by decide) (by decide)
    (by decide)

/-- Counterexample to claim C9: with a missing evaluation past move 10 the
    classifier returns "normal", which is outside the claim's closed set of
    nine tiers. -/
theorem C9_counterexample :
    classify_move_by_cp_loss none (some 5) true "Nf3" 15 ∉
      (["book", "best", "great", "excellent", "good", "inaccuracy",
        "mistake", "blunder", "brilliant"] : List String) := by
  rw [classify_missing_fst (some 5) true "Nf3" 15 (by decide)]
  decide

/-- Claim C9 as amended: on every input — missing evaluations included, which
    never crash classification — the returned tier belongs to the closed set
    book / normal / best / brilliant / great / excellent / good / inaccuracy /
    mistake / blunder. -/
theorem C9_closed_set (cp_before cp_after : Option Int) (w : Bool)
    (san : String) (mn : Int) :
    classify_move_by_cp_loss cp_before cp_after w san mn ∈
      (["book", "normal", "best", "brilliant", "great", "excellent", "good",
        "inaccuracy", "mistake", "blunder"] : List String) := by
  by_cases hmn : mn ≤ 10
  · rw [classify_book cp_before cp_after w san mn hmn]
    decide
  · rcases cp_before with _ | cb
    · rw [classify_missing_fst cp_after w san mn (by omega)]
      decide
    · rcases cp_after with _ | ca
      · rw [classify_missing_snd (some cb) w san mn (by omega)]
        decide
      · rw [classify_some_some cb ca w san mn (by omega)]
        split_ifs <;> decide

/-- One per-move error term (src/api/services/analysis.py, line 134): the
    win-probability drop from the mover's perspective, clamped to ≥ 0.
    Win probabilities are modelled as rationals. -/
def move_error (is_white : Bool) (prev_wp post_wp : ℚ) : ℚ :=
  if is_white then max 0 (prev_wp - post_wp) else max 0 (post_wp - prev_wp)

/-- Python's round-half-to-even of a rational to an integer. -/
def round_half_even (x : ℚ) : ℤ :=
  if x - ⌊x⌋ = 1/2 then (if ⌊x⌋ % 2 = 0 then ⌊x⌋ else ⌊x⌋ + 1)
  else ⌊x + 1/2⌋

/-- Python's `round(x, 1)`: round to one decimal place, ties to even. -/
def round1 (x : ℚ) : ℚ := (round_half_even (10 * x) : ℚ) / 10

/-- src/api/services/analysis.py, lines 160-161: 100 minus the mean per-move
    error, and 100 for a color with no moves (the division is only reached
    when the error list is nonempty). -/
def accuracy_raw (errors : List ℚ) : ℚ :=
  if errors = [] then 100 else 100 - errors.sum / errors.length

/-- src/api/services/analysis.py, lines 165-166: the returned per-color
    accuracy, `round(max(0, min(100, acc)), 1)`. -/
def accuracy_final (errors : List ℚ) : ℚ :=
  round1 (max 0 (min 100 (accuracy_raw errors)))

lemma round_half_even_mono {x y : ℚ} (hxy : x ≤ y) :
    round_half_even x ≤ round_half_even y := by
  rcases eq_or_lt_of_le hxy with rfl | hlt
  · exact le_rfl
  unfold round_half_even
  by_cases h1 : x - ⌊x⌋ = 1/2 <;> by_cases h3 : y - ⌊y⌋ = 1/2
  · rw [if_pos h1, if_pos h3]
    have key : ⌊x⌋ < ⌊y⌋ := by
      have : ((⌊x⌋ : ℚ)) < ⌊y⌋ := by linarith
      exact_mod_cast this
    have l1 : (if ⌊x⌋ % 2 = 0 then ⌊x⌋ else ⌊x⌋ + 1) ≤ ⌊x⌋ + 1 := by
      split_ifs <;> omega
    have l2 : ⌊y⌋ ≤ (if ⌊y⌋ % 2 = 0 then ⌊y⌋ else ⌊y⌋ + 1) := by
      split_ifs <;> omega
    omega
  · rw [if_pos h1, if_neg h3]
    have key : ⌊x⌋ + 1 ≤ ⌊y + 1/2⌋ := by
      apply Int.le_floor.mpr
      push_cast
      linarith
    have l1 : (if ⌊x⌋ % 2 = 0 then ⌊x⌋ else ⌊x⌋ + 1) ≤ ⌊x⌋ + 1 := by
      split_ifs <;> omega
    omega
  · rw [if_neg h1, if_pos h3]
    have key : ⌊x + 1/2⌋ ≤ ⌊y⌋ := by
      have hlt2 : ⌊x + 1/2⌋ < ⌊y⌋ + 1 := by
        apply Int.floor_lt.mpr
        push_cast
        linarith
      omega
    have l2 : ⌊y⌋ ≤ (if ⌊y⌋ % 2 = 0 then ⌊y⌋ else ⌊y⌋ + 1) := by
      split_ifs <;> omega
    omega
  · rw [if_neg h1, if_neg h3]
    exact Int.floor_le_floor (by linarith)

lemma round1_mono {x y : ℚ} (h : x ≤ y) : round1 x ≤ round1 y := by
  unfold round1
  have h10 : round_half_even (10 * x) ≤ round_half_even (10 * y) :=
    round_half_even_mono (by linarith)
  have hc : ((round_half_even (10 * x) : ℚ)) ≤ round_half_even (10 * y) := by
    exact_mod_cast h10
  linarith

lemma round_half_even_intCast (n : ℤ) : round_half_even ((n : ℚ)) = n := by
  unfold round_half_even
  rw [Int.floor_intCast, if_neg (by norm_num)]
  apply Int.floor_eq_iff.mpr
  constructor <;> linarith

lemma round1_intCast (n : ℤ) : round1 ((n : ℚ)) = n := by
  unfold round1
  have hcast : (10 : ℚ) * (n : ℚ) = ((10 * n : ℤ) : ℚ) := by push_cast; ring
  rw [hcast, round_half_even_intCast]
  push_cast
  ring

lemma accuracy_final_nonneg (errors : List ℚ) : 0 ≤ accuracy_final errors := by
  unfold accuracy_final
  have h := round1_mono (le_max_left 0 (min 100 (accuracy_raw errors)))
  have h0 : round1 0 = 0 := by
    have := round1_intCast 0
    simpa using this
  rw [h0] at h
  exact h

lemma accuracy_final_le_100 (errors : List ℚ) : accuracy_final errors ≤ 100 := by
  unfold accuracy_final
  have hle : max 0 (min 100 (accuracy_raw errors)) ≤ 100 :=
    max_le (by norm_num) (min_le_left _ _)
  have h := round1_mono hle
  have h100 : round1 100 = 100 := by
    have := round1_intCast 100
    simpa using this
  rw [h100] at h
  exact h

lemma accuracy_final_nil : accuracy_final [] = 100 := by
  unfold accuracy_final accuracy_raw
  rw [if_pos rfl]
  have hclamp : max (0 : ℚ) (min 100 100) = 100 := by norm_num
  rw [hclamp]
  have := round1_intCast 100
  simpa using this

lemma accuracy_final_le_of_raw {a b : List ℚ} (h : accuracy_raw a ≤ accuracy_raw b) :
    accuracy_final a ≤ accuracy_final b := by
  unfold accuracy_final
  exact round1_mono (max_le_max le_rfl (min_le_min le_rfl h))

lemma accuracy_raw_append_zero (errors : List ℚ) (hnn : ∀ x ∈ errors, 0 ≤ x) :
    accuracy_raw errors ≤ accuracy_raw (errors ++ [0]) := by
  unfold accuracy_raw
  rcases eq_or_ne errors [] with rfl | hne
  · norm_num
  · rw [if_neg hne, if_neg (by simp)]
    have hsum : 0 ≤ errors.sum := List.sum_nonneg hnn
    have hlen : 0 < ((errors.length : ℚ)) := by
      have : 0 < errors.length := List.length_pos.mpr hne
      exact_mod_cast this
    have key : (errors ++ [0]).sum / ((errors ++ [0]).length : ℚ)
        ≤ errors.sum / errors.length := by
      have hs : (errors ++ [0]).sum = errors.sum := by simp
      have hl : (((errors ++ [0]).length : ℚ)) = errors.length + 1 := by
        simp
      rw [hs, hl]
      gcongr
      linarith
    linarith

lemma accuracy_raw_append_big (errors : List ℚ) (e : ℚ)
    (he : ∀ x ∈ errors, x ≤ e) (hne : errors ≠ []) :
    accuracy_raw (errors ++ [e]) ≤ accuracy_raw errors := by
  unfold accuracy_raw
  rw [if_neg hne, if_neg (by simp)]
  have hlen : 0 < ((errors.length : ℚ)) := by
    have : 0 < errors.length := List.length_pos.mpr hne
    exact_mod_cast this
  have hsum_le : errors.sum ≤ (errors.length : ℚ) * e := by
    have := List.sum_le_card_nsmul errors e he
    simpa [nsmul_eq_mul] using this
  have key : errors.sum / ((errors.length : ℚ))
      ≤ (errors ++ [e]).sum / ((errors ++ [e]).length : ℚ) := by
    have hs : (errors ++ [e]).sum = errors.sum + e := by simp
    have hl : (((errors ++ [e]).length : ℚ)) = errors.length + 1 := by simp
    rw [hs, hl, div_le_div_iff₀ hlen (by linarith)]
    ring_nf
    nlinarith
  linarith

/-- Claim C4: the per-color accuracy is always a value in [0, 100], a color
    with no moves gets exactly 100, and every per-move error term is clamped
    to be nonnegative; the computation is a total function of the error lists
    (no division reached on an empty list). -/
theorem C4_accuracy_bounds :
    (∀ errors : List ℚ, 0 ≤ accuracy_final errors ∧ accuracy_final errors ≤ 100) ∧
    accuracy_final [] = 100 ∧
    (∀ (w : Bool) (p q : ℚ), 0 ≤ move_error w p q) := by
  refine ⟨fun errors => ⟨accuracy_final_nonneg errors, accuracy_final_le_100 errors⟩,
    accuracy_final_nil, fun w p q => ?_⟩
  unfold move_error
  split_ifs <;> exact le_max_left _ _

/-- Claim C10: appending a zero-loss move never decreases a color's computed
    accuracy, and appending a move whose loss is at least every existing
    per-move loss ("high-loss") never increases it. -/
theorem C10_accuracy_monotone (errors : List ℚ) (e : ℚ)
    (hnn : ∀ x ∈ errors, 0 ≤ x) (he : ∀ x ∈ errors, x ≤ e) :
    accuracy_final errors ≤ accuracy_final (errors ++ [0]) ∧
    accuracy_final (errors ++ [e]) ≤ accuracy_final errors := by
  constructor
  · exact accuracy_final_le_of_raw (accuracy_raw_append_zero errors hnn)
  · rcases eq_or_ne errors [] with rfl | hne
    · rw [accuracy_final_nil]
      exact accuracy_final_le_100 _
    · exact accuracy_final_le_of_raw (accuracy_raw_append_big errors e he hne)

/-- Witness for C10 on the error lists [30, 50] with appended loss 60. -/
theorem C10_accuracy_monotone_witness :
    accuracy_final [30, 50] ≤ accuracy_final ([30, 50] ++ [0]) ∧
    accuracy_final ([30, 50] ++ [60]) ≤ accuracy_final [30, 50] :=
  C10_accuracy_monotone [30, 50] 60 (by decide) (by decide)

/-- Embedding of `cp_to_win_probability`
    (src/api/services/stockfish_analyzer.py, lines 32-34, identically
    src/api/services/analysis.py, lines 16-21): the logistic win-probability
    transform, modelled over the reals. -/
noncomputable def cp_to_win_probability (cp : ℝ) : ℝ :=
  50 + 50 * (2 / (1 + Real.exp (-0.004 * cp)) - 1)

lemma cp_to_win_probability_closed_form (cp : ℝ) :
    cp_to_win_probability cp = 100 / (1 + Real.exp (-0.004 * cp)) := by
  have h : (0:ℝ) < 1 + Real.exp (-0.004 * cp) := by positivity
  unfold cp_to_win_probability
  field_simp
  ring

lemma exp_eight_lt : Real.exp 8 < 9999 := by
  have h1 : Real.exp 8 = Real.exp 1 ^ 8 := by
    rw [← Real.exp_nat_mul]
    norm_num
  have h2 : Real.exp 1 ^ 8 < (2.7182818286 : ℝ) ^ 8 := by
    gcongr
    exact Real.exp_one_lt_d9
  have h3 : ((2.7182818286 : ℝ)) ^ 8 < 9999 := by norm_num
  linarith [h1 ▸ h2]

lemma exp_eight_gt : (2000 : ℝ) < Real.exp 8 := by
  have h1 : Real.exp 8 = Real.exp 1 ^ 8 := by
    rw [← Real.exp_nat_mul]
    norm_num
  have h2 : ((2.7182818283 : ℝ)) ^ 8 < Real.exp 1 ^ 8 := by
    gcongr
    exact Real.exp_one_gt_d9
  have h3 : (2000 : ℝ) < ((2.7182818283 : ℝ)) ^ 8 := by norm_num
  linarith [h1 ▸ h2]

lemma win_prob_monotone : Monotone cp_to_win_probability := by
  intro a b hab
  rw [cp_to_win_probability_closed_form, cp_to_win_probability_closed_form]
  have hexp : Real.exp (-0.004 * b) ≤ Real.exp (-0.004 * a) :=
    Real.exp_le_exp.mpr (by linarith)
  have hb : (0:ℝ) < 1 + Real.exp (-0.004 * b) := by positivity
  exact div_le_div_of_nonneg_left (by norm_num) hb (by linarith)

lemma win_prob_zero : cp_to_win_probability 0 = 50 := by
  unfold cp_to_win_probability
  norm_num

lemma win_prob_bounds (cp : ℝ) :
    0 ≤ cp_to_win_probability cp ∧ cp_to_win_probability cp ≤ 100 := by
  rw [cp_to_win_probability_closed_form]
  have hE : (0:ℝ) < Real.exp (-0.004 * cp) := Real.exp_pos _
  constructor
  · positivity
  · exact div_le_self (by norm_num) (by linarith)

lemma win_prob_tendsto_top :
    Filter.Tendsto cp_to_win_probability Filter.atTop (nhds 100) := by
  have h0 : Filter.Tendsto (fun cp : ℝ => 0.004 * cp) Filter.atTop Filter.atTop :=
    Filter.Tendsto.const_mul_atTop (by norm_num) Filter.tendsto_id
  have h1 : Filter.Tendsto (fun cp : ℝ => -0.004 * cp) Filter.atTop Filter.atBot :=
    (Filter.tendsto_neg_atTop_atBot.comp h0).congr (fun x => by simp)
  have h2 : Filter.Tendsto (fun cp : ℝ => Real.exp (-0.004 * cp))
      Filter.atTop (nhds 0) := Real.tendsto_exp_atBot.comp h1
  have h3 : Filter.Tendsto (fun cp : ℝ => 1 + Real.exp (-0.004 * cp))
      Filter.atTop (nhds 1) := by
    have := (tendsto_const_nhds :
      Filter.Tendsto (fun _ : ℝ => (1:ℝ)) Filter.atTop (nhds 1)).add h2
    simpa using this
  have h4 : Filter.Tendsto (fun cp : ℝ => 100 / (1 + Real.exp (-0.004 * cp)))
      Filter.atTop (nhds 100) := by
    have := Filter.Tendsto.div
      (tendsto_const_nhds : Filter.Tendsto (fun _ : ℝ => (100:ℝ)) Filter.atTop (nhds 100))
      h3 one_ne_zero
    simpa using this
  exact h4.congr (fun cp => (cp_to_win_probability_closed_form cp).symm)

lemma win_prob_tendsto_bot :
    Filter.Tendsto cp_to_win_probability Filter.atBot (nhds 0) := by
  have h0 : Filter.Tendsto (fun cp : ℝ => 0.004 * cp) Filter.atBot Filter.atBot :=
    Filter.Tendsto.const_mul_atBot (by norm_num) Filter.tendsto_id
  have h1 : Filter.Tendsto (fun cp : ℝ => -0.004 * cp) Filter.atBot Filter.atTop :=
    (Filter.tendsto_neg_atBot_atTop.comp h0).congr (fun x => by simp)
  have h2 : Filter.Tendsto (fun cp : ℝ => Real.exp (-0.004 * cp))
      Filter.atBot Filter.atTop := Real.tendsto_exp_atTop.comp h1
  have h3 : Filter.Tendsto (fun cp : ℝ => 1 + Real.exp (-0.004 * cp))
      Filter.atBot Filter.atTop := Filter.tendsto_atTop_add_const_left _ 1 h2
  have h4 : Filter.Tendsto (fun cp : ℝ => 100 / (1 + Real.exp (-0.004 * cp)))
      Filter.atBot (nhds 0) := Filter.Tendsto.div_atTop tendsto_const_nhds h3
  exact h4.congr (fun cp => (cp_to_win_probability_closed_form cp).symm)

lemma win_prob_tail_top (cp : ℝ) (h : 2000 ≤ cp) :
    100 - cp_to_win_probability cp ≤ 0.05 := by
  rw [cp_to_win_probability_closed_form]
  set E := Real.exp (-0.004 * cp) with hEdef
  have hEpos : 0 < E := Real.exp_pos _
  have hEle : E ≤ Real.exp (-8) := Real.exp_le_exp.mpr (by linarith)
  have hEsmall : E ≤ 1 / 2000 := by
    have h8 : Real.exp (-8) = (Real.exp 8)⁻¹ := Real.exp_neg 8
    have hinv : (Real.exp 8)⁻¹ ≤ 1 / 2000 := by
      rw [one_div]
      exact inv_anti₀ (by norm_num) exp_eight_gt.le
    calc E ≤ Real.exp (-8) := hEle
      _ = (Real.exp 8)⁻¹ := h8
      _ ≤ 1 / 2000 := hinv
  have hpos : (0:ℝ) < 1 + E := by linarith
  have hfrac : 100 - 100 * E ≤ 100 / (1 + E) := by
    rw [le_div_iff₀ hpos]
    nlinarith [sq_nonneg E]
  linarith

lemma win_prob_tail_bot (cp : ℝ) (h : cp ≤ -2000) :
    cp_to_win_probability cp ≤ 0.05 := by
  rw [cp_to_win_probability_closed_form]
  set E := Real.exp (-0.004 * cp) with hEdef
  have hEge : Real.exp 8 ≤ E := Real.exp_le_exp.mpr (by linarith)
  have hEbig : (2000:ℝ) < E := lt_of_lt_of_le exp_eight_gt hEge
  have hstep : 100 / (1 + E) ≤ 100 / 2001 :=
    div_le_div_of_nonneg_left (by norm_num) (by norm_num) (by linarith)
  have : (100:ℝ) / 2001 ≤ 0.05 := by norm_num
  linarith

/-- Counterexample to claim C5's asymptotic bound: at cp = 2000 the transform
    is more than 0.01 away from its limit 100 (the gap is about 0.0335). -/
theorem C5_counterexample : (0.01 : ℝ) < 100 - cp_to_win_probability 2000 := by
  rw [cp_to_win_probability_closed_form]
  have harg : (-0.004 : ℝ) * 2000 = -8 := by norm_num
  rw [harg]
  set E := Real.exp (-8) with hEdef
  have hEpos : 0 < E := Real.exp_pos _
  have hEgt : (1:ℝ) / 9999 < E := by
    have h8 : Real.exp (-8) = (Real.exp 8)⁻¹ := Real.exp_neg 8
    have hinv : (9999:ℝ)⁻¹ < (Real.exp 8)⁻¹ :=
      inv_strictAnti₀ (Real.exp_pos 8) exp_eight_lt
    rw [one_div, hEdef, h8]
    exact hinv
  have hpos : (0:ℝ) < 1 + E := by linarith
  have hlt : 100 / (1 + E) < 99.99 := by
    rw [div_lt_iff₀ hpos]
    nlinarith
  linarith

/-- Claim C5 as amended: the logistic transform is monotone, is 50 at zero,
    stays within [0, 100], tends to 100 at +infinity and to 0 at -infinity,
    and is within 0.05 (not 0.01) of its limits once |cp| ≥ 2000. -/
theorem C5_logistic_properties :
    Monotone cp_to_win_probability ∧
    cp_to_win_probability 0 = 50 ∧
    (∀ cp : ℝ, 0 ≤ cp_to_win_probability cp ∧ cp_to_win_probability cp ≤ 100) ∧
    Filter.Tendsto cp_to_win_probability Filter.atTop (nhds 100) ∧
    Filter.Tendsto cp_to_win_probability Filter.atBot (nhds 0) ∧
    (∀ cp : ℝ, 2000 ≤ cp → 100 - cp_to_win_probability cp ≤ 0.05) ∧
    (∀ cp : ℝ, cp ≤ -2000 → cp_to_win_probability cp ≤ 0.05) :=
  ⟨win_prob_monotone, win_prob_zero, win_prob_bounds, win_prob_tendsto_top,
   win_prob_tendsto_bot, win_prob_tail_top, win_prob_tail_bot⟩

/-- Witness for C5 at the boundary |cp| = 2000 of the tail bound. -/
theorem C5_logistic_properties_witness :
    100 - cp_to_win_probability 2000 ≤ 0.05 ∧
    cp_to_win_probability (-2000) ≤ 0.05 :=
  ⟨C5_logistic_properties.2.2.2.2.2.1 2000 le_rfl,
   C5_logistic_properties.2.2.2.2.2.2 (-2000) le_rfl⟩

/-- Session state of a `StockfishAnalyzer`: whether the engine subprocess is
    running (`self._engine is not None` in
    src/api/services/stockfish_analyzer.py). -/
structure StockfishAnalyzerState where
  engine_running : Bool

/-- Outcome of the underlying engine call inside `analyze_position`: either
    the engine returns an info with an optional score, mate count and
    principal variation, or the awaited call raises (engine crash, protocol
    desync, or the call exceeding its timeout). -/
inductive EngineCallOutcome where
  | returns (cp mate : Option Int) (pv : List String)
  | raised

/-- Embedding of `StockfishAnalyzer.analyze_position`
    (src/api/services/stockfish_analyzer.py, lines 218-253): starts the
    engine when it is not running (modelled as a successful start), then runs
    the engine call; any exception is caught, logged, and turned into the
    no-evaluation result (None, None, []) — nothing is re-raised and the
    session is not torn down. -/
def StockfishAnalyzer.analyze_position (st : StockfishAnalyzerState)
    (outcome : EngineCallOutcome) :
    StockfishAnalyzerState × Except String (Option Int × Option Int × List String) :=
  let started : StockfishAnalyzerState := { st with engine_running := true }
  match outcome with
  | .returns cp mate pv => (started, .ok (cp, mate, pv))
  | .raised => (started, .ok (none, none, []))

/-- Embedding of `StockfishAnalyzer.stop`
    (src/api/services/stockfish_analyzer.py, lines 210-216): clears the
    engine handle when it is set and does nothing otherwise; it never
    raises. -/
def StockfishAnalyzer.stop (st : StockfishAnalyzerState) :
    StockfishAnalyzerState × Except String Unit :=
  ({ st with engine_running := false }, .ok ())

/-- Counterexample to claim C6: with the session running, a failing
    `analyze` call does not surface any exception and does not tear the
    session down — the call returns the no-evaluation result with the engine
    still running, contradicting "EngineAnalysisFailed is raised and stop()
    is observably called". -/
theorem C6_counterexample :
    (StockfishAnalyzer.analyze_position ⟨true⟩ EngineCallOutcome.raised).2
        = Except.ok (none, none, ([] : List String)) ∧
    (StockfishAnalyzer.analyze_position ⟨true⟩ EngineCallOutcome.raised).1.engine_running
        = true :=
  ⟨rfl, rfl⟩

/-- Claim C6 as amended: a failing `analyze` call is swallowed — it returns
    the no-evaluation result (None, None, []) instead of raising, the session
    state is unchanged (still running, stop not called) — while `stop` indeed
    never raises and calling it a second time is a harmless no-op. -/
theorem C6_failure_swallowed (st : StockfishAnalyzerState)
    (h : st.engine_running = true) :
    (StockfishAnalyzer.analyze_position st EngineCallOutcome.raised).2
        = Except.ok (none, none, ([] : List String)) ∧
    (StockfishAnalyzer.analyze_position st EngineCallOutcome.raised).1 = st ∧
    (StockfishAnalyzer.stop st).2 = Except.ok () ∧
    (StockfishAnalyzer.stop (StockfishAnalyzer.stop st).1).2 = Except.ok () ∧
    (StockfishAnalyzer.stop (StockfishAnalyzer.stop st).1).1
        = (StockfishAnalyzer.stop st).1 := by
  obtain ⟨e⟩ := st
  subst h
  exact ⟨rfl, rfl, rfl, rfl, rfl⟩

/-- Witness for the amended C6 at a running session. -/
theorem C6_failure_swallowed_witness :
    (StockfishAnalyzer.analyze_position ⟨true⟩ EngineCallOutcome.raised).2
        = Except.ok (none, none, ([] : List String)) ∧
    (StockfishAnalyzer.stop ⟨true⟩).2 = Except.ok () :=
  ⟨(C6_failure_swallowed ⟨true⟩ rfl).1, (C6_failure_swallowed ⟨true⟩ rfl).2.2.1⟩

/-- Embedding of the PGN-parsing prefix of `analyze_game_moves`
    (src/api/services/analysis.py, lines 58-61), parameterized over the
    external PGN parser (`chess.pgn.read_game`, `none` on unparseable input)
    and over the rest of the analysis: an unparseable game raises
    ValueError("Invalid PGN"). -/
def analyze_game_moves {Game R : Type} (read_game : String → Option Game)
    (analysis_of : Game → R) (pgn : String) : Except String R :=
  match read_game pgn with
  | none => .error "Invalid PGN"
  | some g => .ok (analysis_of g)

/-- Embedding of the PGN-parsing prefix of `StockfishAnalyzer.analyze_game`
    (src/api/services/stockfish_analyzer.py, lines 272-282): a PGN that fails
    to parse (or whose parsing raises) is logged and the empty result list is
    returned without error; only a successfully parsed game reaches the
    engine-driven rest of the analysis. -/
def StockfishAnalyzer.analyze_game {Game M : Type} (read_game : String → Option Game)
    (analysis_of : Game → Except String (List M)) (pgn : String) :
    Except String (List M) :=
  match read_game pgn with
  | none => .ok []
  | some g => analysis_of g

/-- Counterexample to claim C7: for an unparseable PGN (the parser is
    instantiated to reject the input, as `chess.pgn.read_game` does on
    garbage), `StockfishAnalyzer.analyze_game` returns a successful empty
    analysis instead of reporting an error. -/
theorem C7_counterexample :
    StockfishAnalyzer.analyze_game (fun _ => (none : Option Unit))
      (fun _ => Except.ok ([] : List Unit)) "1. Zz9 xx" = Except.ok [] := rfl

/-- Claim C7 as amended: when the PGN cannot be parsed, `analyze_game_moves`
    raises ValueError("Invalid PGN") to the caller, but
    `StockfishAnalyzer.analyze_game` silently returns a successful empty
    result list with the game skipped. -/
theorem C7_invalid_pgn {Game M R : Type} (read_game : String → Option Game)
    (analysis_of : Game → R) (analysis_list : Game → Except String (List M))
    (pgn : String) (h : read_game pgn = none) :
    analyze_game_moves read_game analysis_of pgn = Except.error "Invalid PGN" ∧
    StockfishAnalyzer.analyze_game read_game analysis_list pgn = Except.ok [] := by
  unfold analyze_game_moves StockfishAnalyzer.analyze_game
  rw [h]
  exact ⟨rfl, rfl⟩

/-- Witness for the amended C7 with a parser that rejects the input. -/
theorem C7_invalid_pgn_witness :
    analyze_game_moves (fun _ => (none : Option Unit)) (fun _ => (0 : Nat)) ""
        = Except.error "Invalid PGN" ∧
    StockfishAnalyzer.analyze_game (fun _ => (none : Option Unit))
        (fun _ => Except.ok ([] : List Nat)) "" = Except.ok [] :=
  C7_invalid_pgn (fun _ => none) (fun _ => 0) (fun _ => Except.ok []) "" rfl
